import Mathlib

/-!
Verification of the CoreHapticsFFI C header (`ios/Sources/CoreHapticsFFI/include/CoreHapticsFFI.h`).

The repository consists of a single C-linkage header declaring an FFI surface.
We embed the header's declarations shallowly: C types become a small type AST,
each declared function becomes a record of its name, parameter types (in order)
and return type, and the two integer enumerations become association lists.
Contracts whose implementation file is not part of the repository (handle
validity checking, message-string ownership, purity of the capability query)
are modelled from the specification, marked as such in their doc comments.
-/

/-- AST of the C types appearing in the header.  `ptr c t` is a pointer to
`t`, with `c = true` when the pointee is `const`-qualified.  `callbackTy`
stands for the typedef name `CHFFIEngineCallback` used as a parameter type;
its own signature is recorded separately in `CHFFIEngineCallback`. -/
inductive CType where
  | void
  | int32
  | uint8
  | double
  | char
  | callbackTy
  | ptr (constPointee : Bool) (pointee : CType)
deriving DecidableEq

/-- A C function declaration: name, parameter types in order, return type. -/
structure CFunDecl where
  name : String
  params : List CType
  ret : CType
deriving DecidableEq

/-- `typedef void* CHFFIEngineHandle;` -/
def CHFFIEngineHandle : CType := .ptr false .void

/-- `typedef void* CHFFIPatternHandle;` -/
def CHFFIPatternHandle : CType := .ptr false .void

/-- `typedef void* CHFFIPlayerHandle;` -/
def CHFFIPlayerHandle : CType := .ptr false .void

/-- `typedef void (*CHFFIEngineCallback)(int32_t eventCode, const char* message, void* context);` -/
def CHFFIEngineCallback : CFunDecl :=
  ⟨"CHFFIEngineCallback", [.int32, .ptr true .char, .ptr false .void], .void⟩

/-- The type `char**` of every message out-parameter in the header. -/
def charPtrPtr : CType := .ptr false (.ptr false .char)

def CHFFI_ERROR_OK : Int := 0
def CHFFI_ERROR_NOT_SUPPORTED : Int := 1
def CHFFI_ERROR_ENGINE : Int := 2
def CHFFI_ERROR_INVALID_HANDLE : Int := 3
def CHFFI_ERROR_INVALID_ARGUMENT : Int := 4
def CHFFI_ERROR_PATTERN : Int := 5
def CHFFI_ERROR_PLAYER : Int := 6
def CHFFI_ERROR_IO : Int := 7
def CHFFI_ERROR_DECODE : Int := 8
def CHFFI_ERROR_RUNTIME : Int := 9
def CHFFI_ERROR_UNKNOWN : Int := 255

/-- The header's anonymous error-code enumeration, members in source order. -/
def errorEnum : List (String × Int) :=
  [("CHFFI_ERROR_OK", CHFFI_ERROR_OK),
   ("CHFFI_ERROR_NOT_SUPPORTED", CHFFI_ERROR_NOT_SUPPORTED),
   ("CHFFI_ERROR_ENGINE", CHFFI_ERROR_ENGINE),
   ("CHFFI_ERROR_INVALID_HANDLE", CHFFI_ERROR_INVALID_HANDLE),
   ("CHFFI_ERROR_INVALID_ARGUMENT", CHFFI_ERROR_INVALID_ARGUMENT),
   ("CHFFI_ERROR_PATTERN", CHFFI_ERROR_PATTERN),
   ("CHFFI_ERROR_PLAYER", CHFFI_ERROR_PLAYER),
   ("CHFFI_ERROR_IO", CHFFI_ERROR_IO),
   ("CHFFI_ERROR_DECODE", CHFFI_ERROR_DECODE),
   ("CHFFI_ERROR_RUNTIME", CHFFI_ERROR_RUNTIME),
   ("CHFFI_ERROR_UNKNOWN", CHFFI_ERROR_UNKNOWN)]

def CHFFI_EVENT_ENGINE_STOPPED : Int := 1
def CHFFI_EVENT_ENGINE_RESET : Int := 2
def CHFFI_EVENT_ENGINE_INTERRUPTED : Int := 3
def CHFFI_EVENT_ENGINE_RESTARTED : Int := 4

/-- The header's anonymous event-code enumeration, members in source order. -/
def eventEnum : List (String × Int) :=
  [("CHFFI_EVENT_ENGINE_STOPPED", CHFFI_EVENT_ENGINE_STOPPED),
   ("CHFFI_EVENT_ENGINE_RESET", CHFFI_EVENT_ENGINE_RESET),
   ("CHFFI_EVENT_ENGINE_INTERRUPTED", CHFFI_EVENT_ENGINE_INTERRUPTED),
   ("CHFFI_EVENT_ENGINE_RESTARTED", CHFFI_EVENT_ENGINE_RESTARTED)]

def chffi_string_free : CFunDecl :=
  ⟨"chffi_string_free", [.ptr true .char], .int32⟩

def chffi_engine_create : CFunDecl :=
  ⟨"chffi_engine_create",
   [.ptr false CHFFIEngineHandle, .callbackTy, .ptr false .void, charPtrPtr], .int32⟩

def chffi_engine_start : CFunDecl :=
  ⟨"chffi_engine_start", [CHFFIEngineHandle, charPtrPtr], .int32⟩

def chffi_engine_stop : CFunDecl :=
  ⟨"chffi_engine_stop", [CHFFIEngineHandle, charPtrPtr], .int32⟩

def chffi_engine_release : CFunDecl :=
  ⟨"chffi_engine_release", [CHFFIEngineHandle], .void⟩

def chffi_pattern_from_ahap_data : CFunDecl :=
  ⟨"chffi_pattern_from_ahap_data",
   [.ptr true .uint8, .int32, .ptr false CHFFIPatternHandle, charPtrPtr], .int32⟩

def chffi_pattern_from_ahap_file : CFunDecl :=
  ⟨"chffi_pattern_from_ahap_file",
   [.ptr true .char, .ptr false CHFFIPatternHandle, charPtrPtr], .int32⟩

def chffi_pattern_release : CFunDecl :=
  ⟨"chffi_pattern_release", [CHFFIPatternHandle], .void⟩

def chffi_player_create : CFunDecl :=
  ⟨"chffi_player_create",
   [CHFFIEngineHandle, CHFFIPatternHandle, .ptr false CHFFIPlayerHandle, charPtrPtr], .int32⟩

def chffi_player_play : CFunDecl :=
  ⟨"chffi_player_play", [CHFFIPlayerHandle, .double, charPtrPtr], .int32⟩

def chffi_player_stop : CFunDecl :=
  ⟨"chffi_player_stop", [CHFFIPlayerHandle, .double, charPtrPtr], .int32⟩

def chffi_player_set_loop : CFunDecl :=
  ⟨"chffi_player_set_loop",
   [CHFFIPlayerHandle, .int32, .double, .double, charPtrPtr], .int32⟩

def chffi_player_send_parameter : CFunDecl :=
  ⟨"chffi_player_send_parameter",
   [CHFFIPlayerHandle, .int32, .double, .double, charPtrPtr], .int32⟩

def chffi_player_release : CFunDecl :=
  ⟨"chffi_player_release", [CHFFIPlayerHandle], .void⟩

def chffi_supports_haptics : CFunDecl :=
  ⟨"chffi_supports_haptics", [], .int32⟩

def chffi_impact_light : CFunDecl := ⟨"chffi_impact_light", [], .void⟩

def chffi_impact_medium : CFunDecl := ⟨"chffi_impact_medium", [], .void⟩

def chffi_impact_heavy : CFunDecl := ⟨"chffi_impact_heavy", [], .void⟩

def chffi_impact_soft : CFunDecl := ⟨"chffi_impact_soft", [], .void⟩

def chffi_impact_rigid : CFunDecl := ⟨"chffi_impact_rigid", [], .void⟩

def chffi_notification_success : CFunDecl := ⟨"chffi_notification_success", [], .void⟩

def chffi_notification_warning : CFunDecl := ⟨"chffi_notification_warning", [], .void⟩

def chffi_notification_error : CFunDecl := ⟨"chffi_notification_error", [], .void⟩

def chffi_selection : CFunDecl := ⟨"chffi_selection", [], .void⟩

/-- Every function declaration of the header, in source order. -/
def headerDecls : List CFunDecl :=
  [chffi_string_free,
   chffi_engine_create, chffi_engine_start, chffi_engine_stop, chffi_engine_release,
   chffi_pattern_from_ahap_data, chffi_pattern_from_ahap_file, chffi_pattern_release,
   chffi_player_create, chffi_player_play, chffi_player_stop,
   chffi_player_set_loop, chffi_player_send_parameter, chffi_player_release,
   chffi_supports_haptics,
   chffi_impact_light, chffi_impact_medium, chffi_impact_heavy,
   chffi_impact_soft, chffi_impact_rigid,
   chffi_notification_success, chffi_notification_warning, chffi_notification_error,
   chffi_selection]

/-- The nine stateless one-shot feedback triggers, in source order. -/
def oneShotTriggers : List CFunDecl :=
  [chffi_impact_light, chffi_impact_medium, chffi_impact_heavy,
   chffi_impact_soft, chffi_impact_rigid,
   chffi_notification_success, chffi_notification_warning, chffi_notification_error,
   chffi_selection]

/-- The status-returning operations listed with a `char**` message
out-parameter: engine create/start/stop, the two pattern decoders, and the
player create/play/stop/set-loop/send-parameter operations. -/
def fallibleOps : List CFunDecl :=
  [chffi_engine_create, chffi_engine_start, chffi_engine_stop,
   chffi_pattern_from_ahap_data, chffi_pattern_from_ahap_file,
   chffi_player_create, chffi_player_play, chffi_player_stop,
   chffi_player_set_loop, chffi_player_send_parameter]

/-- C argument compatibility between pointer types: a `T*` value may be passed
where a `const T*` parameter is declared (the qualifier-adding pointer
conversion of C17 6.5.16.1p6); a `const T*` value may not be passed where a
plain `T*` is declared; otherwise the types must agree. -/
def CType.assignableTo : CType → CType → Bool
  | .ptr c t, .ptr c' u => decide (t = u) && (c' || !c)
  | t, u => decide (t = u)

/-- Integer value range `(min, max)` of the fixed-width C integer types used
by the header (C17 `<stdint.h>`): `int32_t` is signed two's-complement 32-bit,
`uint8_t` is unsigned 8-bit.  `none` for non-integer types. -/
def CType.intRange : CType → Option (Int × Int)
  | .int32 => some (-(2 ^ 31), 2 ^ 31 - 1)
  | .uint8 => some (0, 255)
  | _ => none

/-- Whether the integer value `n` is representable in the C type `t`. -/
def CType.representable (t : CType) (n : Int) : Bool :=
  match t.intRange with
  | some (lo, hi) => decide (lo ≤ n) && decide (n ≤ hi)
  | none => false

/-- Modelled from the spec: the implementation file that tracks live handles
is not part of the repository; the spec states that calling any operation on
a released or never-created handle must yield the invalid-handle code and
that callers own lifecycle correctness.  The model's state is the set of
handles that have been created and not yet released. -/
structure FFIState where
  live : List Nat
deriving DecidableEq

/-- Modelled from the spec: every handle-taking operation first validates its
handle against the live set; an invalid handle yields
`CHFFI_ERROR_INVALID_HANDLE` and leaves the state untouched. -/
def checkHandle (s : FFIState) (h : Nat) (body : FFIState → Int × FFIState) :
    Int × FFIState :=
  if h ∈ s.live then body s else (CHFFI_ERROR_INVALID_HANDLE, s)

/-- The handle-taking operations of the interface. -/
inductive HOp where
  | engineStart
  | engineStop
  | playerCreate
  | playerPlay
  | playerStop
  | playerSetLoop
  | playerSendParameter
deriving DecidableEq

/-- Modelled from the spec: each handle-taking operation guarded by
`checkHandle`.  The successful bodies stand for the vendor framework's
behavior, which is outside the repository: `playerCreate` registers a fresh
handle, the playback commands leave the handle set unchanged. -/
def runHOp : HOp → FFIState → Nat → Int × FFIState
  | .playerCreate, s, h =>
      checkHandle s h (fun s => (CHFFI_ERROR_OK, ⟨(s.live.foldr max 0 + 1) :: s.live⟩))
  | _, s, h => checkHandle s h (fun s => (CHFFI_ERROR_OK, s))

/-- Modelled from the spec: the lifecycle of one message string produced
through a `char**` out-parameter.  The implementation that heap-allocates and
frees messages is not part of the repository; the spec states the message is
heap-allocated by the callee, must be freed exactly once via
`chffi_string_free`, and that freeing twice is undefined. -/
inductive MsgLife where
  | produced
  | freed
  | undefinedUse
deriving DecidableEq

/-- Modelled from the spec: the effect of `chffi_string_free` on a message's
lifecycle state.  Freeing a produced message succeeds; freeing anything else
is undefined behavior. -/
def stringFreeLife : MsgLife → Int × MsgLife
  | .produced => (CHFFI_ERROR_OK, .freed)
  | _ => (CHFFI_ERROR_UNKNOWN, .undefinedUse)

/-- Modelled from the spec: the capability query reads a device capability
flag and returns a boolean-like value without touching the handle state. -/
def supportsHapticsM (deviceSupports : Bool) (s : FFIState) : Int × FFIState :=
  (if deviceSupports then 1 else 0, s)

/-- The error codes as the spec's error-handling and interface sections name
them, in that order, with the numeric values the spec assigns (0–9 and 255).
Written from the spec's words, for comparison with the header's enumeration. -/
def specErrorEnum : List (String × Int) :=
  [("ok", 0), ("not-supported", 1), ("engine error", 2), ("invalid handle", 3),
   ("invalid argument", 4), ("pattern error", 5), ("player error", 6),
   ("I/O error", 7), ("decode error", 8), ("runtime error", 9), ("unknown", 255)]

/-- The event codes as the spec names them, in that order, with the
consecutive values 1–4 the spec assigns.  Written from the spec's words, for
comparison with the header's enumeration. -/
def specEventEnum : List (String × Int) :=
  [("stopped", 1), ("reset", 2), ("interrupted", 3), ("restarted", 4)]

/-- C1: the header's error enumeration has exactly eleven members, their
values agree position by position with the codes the spec names (ok through
runtime error valued 0 through 9 in order, unknown valued 255), and the
member names are exactly the eleven `CHFFI_ERROR_*` constants. -/
theorem C1_error_codes :
    errorEnum.length = 11 ∧
    errorEnum.map Prod.snd = specErrorEnum.map Prod.snd ∧
    (errorEnum.take 10).map Prod.snd = (List.range 10).map Int.ofNat ∧
    errorEnum.getLast? = some ("CHFFI_ERROR_UNKNOWN", 255) ∧
    errorEnum.map Prod.fst =
      ["CHFFI_ERROR_OK", "CHFFI_ERROR_NOT_SUPPORTED", "CHFFI_ERROR_ENGINE",
       "CHFFI_ERROR_INVALID_HANDLE", "CHFFI_ERROR_INVALID_ARGUMENT",
       "CHFFI_ERROR_PATTERN", "CHFFI_ERROR_PLAYER", "CHFFI_ERROR_IO",
       "CHFFI_ERROR_DECODE", "CHFFI_ERROR_RUNTIME", "CHFFI_ERROR_UNKNOWN"] := by
  decide

/-- C2: the header's event enumeration has exactly four members whose values
agree position by position with the spec's stopped/reset/interrupted/restarted
codes 1, 2, 3, 4, and the member names are exactly the four
`CHFFI_EVENT_ENGINE_*` constants. -/
theorem C2_event_codes :
    eventEnum.length = 4 ∧
    eventEnum.map Prod.snd = specEventEnum.map Prod.snd ∧
    eventEnum.map Prod.snd = [1, 2, 3, 4] ∧
    eventEnum.map Prod.fst =
      ["CHFFI_EVENT_ENGINE_STOPPED", "CHFFI_EVENT_ENGINE_RESET",
       "CHFFI_EVENT_ENGINE_INTERRUPTED", "CHFFI_EVENT_ENGINE_RESTARTED"] := by
  decide

/-- C3 as stated is false: `chffi_engine_release` is declared by the header
and returns `void`, not `int32_t`. -/
theorem C3_counterexample :
    chffi_engine_release ∈ headerDecls ∧ chffi_engine_release.ret ≠ CType.int32 := by
  decide

/-- C3 (amended): every function declared by the header returns either an
`int32_t` status code or `void` (the three release functions and the nine
one-shot triggers return `void`); every function that takes a `char**`
message out-parameter returns `int32_t`, and every `int32_t`-returning
function other than `chffi_string_free` and `chffi_supports_haptics` takes a
`char**` out-parameter as its final parameter. -/
theorem C3_return_types :
    ∀ d ∈ headerDecls,
      (d.ret = CType.int32 ∨ d.ret = CType.void) ∧
      (charPtrPtr ∈ d.params → d.ret = CType.int32) ∧
      (d.ret = CType.int32 → d.name ≠ "chffi_string_free" →
        d.name ≠ "chffi_supports_haptics" → d.params.getLast? = some charPtrPtr) := by
  decide

/-- Witness for C3: instantiated at `chffi_engine_start`, whose membership in
the header, `char**` parameter and distinct name discharge every hypothesis. -/
theorem C3_return_types_witness :
    chffi_engine_start.ret = CType.int32 ∧
      chffi_engine_start.params.getLast? = some charPtrPtr :=
  ⟨(C3_return_types chffi_engine_start (by decide)).2.1 (by decide),
   (C3_return_types chffi_engine_start (by decide)).2.2 (by decide) (by decide)
     (by decide)⟩

/-- C4: the nine one-shot feedback triggers each take no parameters and
return `void`, so no status code is produced and no handle is required. -/
theorem C4_one_shot_triggers :
    oneShotTriggers.length = 9 ∧
    ∀ d ∈ oneShotTriggers, d.params = [] ∧ d.ret = CType.void := by
  decide

/-- Witness for C4: instantiated at `chffi_impact_light`. -/
theorem C4_one_shot_triggers_witness :
    chffi_impact_light.params = [] ∧ chffi_impact_light.ret = CType.void :=
  C4_one_shot_triggers.2 chffi_impact_light (by decide)

/-- C5: every listed fallible operation takes a `char**` message
out-parameter; `chffi_string_free` takes exactly one parameter, of type
`const char*`, to which the `char*` a message out-parameter yields is
passable; and, in the lifecycle modelled from the spec, freeing a produced
message once succeeds with code 0 while a second free is undefined. -/
theorem C5_message_free_contract :
    (∀ d ∈ fallibleOps, charPtrPtr ∈ d.params) ∧
    chffi_string_free.params = [CType.ptr true CType.char] ∧
    CType.assignableTo (CType.ptr false CType.char) (CType.ptr true CType.char) = true ∧
    stringFreeLife MsgLife.produced = (CHFFI_ERROR_OK, MsgLife.freed) ∧
    (stringFreeLife MsgLife.freed).2 = MsgLife.undefinedUse := by
  decide

/-- Witness for C5: instantiated at `chffi_player_play`. -/
theorem C5_message_free_contract_witness :
    charPtrPtr ∈ chffi_player_play.params :=
  C5_message_free_contract.1 chffi_player_play (by decide)

/-- C6: in the handle semantics modelled from the spec, every handle-taking
operation applied to a handle outside the live set (released or never
created) returns `CHFFI_ERROR_INVALID_HANDLE` (value 3) and leaves the state
unchanged. -/
theorem C6_released_handle_invalid (op : HOp) (s : FFIState) (h : Nat)
    (hm : h ∉ s.live) :
    runHOp op s h = (CHFFI_ERROR_INVALID_HANDLE, s) ∧
      CHFFI_ERROR_INVALID_HANDLE = 3 := by
  refine ⟨?_, rfl⟩
  cases op <;> simp [runHOp, checkHandle, hm]

/-- Witness for C6: handle 7 is not live in the state whose live handles are
1 and 2, and starting the engine with it returns code 3 leaving the state
unchanged. -/
theorem C6_released_handle_invalid_witness :
    runHOp HOp.engineStart (FFIState.mk [1, 2]) 7 =
      (CHFFI_ERROR_INVALID_HANDLE, FFIState.mk [1, 2]) ∧
      CHFFI_ERROR_INVALID_HANDLE = 3 :=
  C6_released_handle_invalid HOp.engineStart (FFIState.mk [1, 2]) 7 (by decide)

/-- C7: `chffi_supports_haptics` takes no parameters and returns `int32_t`,
and in the model from the spec it returns 0 or 1 and leaves any state —
including the empty state with no engine created — unchanged. -/
theorem C7_supports_haptics :
    chffi_supports_haptics.params = [] ∧
    chffi_supports_haptics.ret = CType.int32 ∧
    ∀ (b : Bool) (s : FFIState),
      (supportsHapticsM b s).2 = s ∧
      ((supportsHapticsM b s).1 = 0 ∨ (supportsHapticsM b s).1 = 1) := by
  refine ⟨rfl, rfl, fun b s => ?_⟩
  cases b <;> simp [supportsHapticsM]

/-- C8: the three handle typedefs all abbreviate the same type `void*`, so
the declared parameter types cannot distinguish handle kinds: the engine and
pattern positions of `chffi_player_create` carry the identical type, and a
pattern handle is assignment-compatible with every handle position. -/
theorem C8_handles_indistinguishable :
    CHFFIEngineHandle = CType.ptr false CType.void ∧
    CHFFIPatternHandle = CHFFIEngineHandle ∧
    CHFFIPlayerHandle = CHFFIEngineHandle ∧
    chffi_player_create.params.take 2 = [CHFFIEngineHandle, CHFFIPatternHandle] ∧
    chffi_player_create.params.take 2 = [CHFFIPatternHandle, CHFFIEngineHandle] ∧
    CType.assignableTo CHFFIPatternHandle CHFFIEngineHandle = true ∧
    CType.assignableTo CHFFIEngineHandle CHFFIPlayerHandle = true := by
  decide

/-- C9: `chffi_string_free` is declared to return `int32_t`, not `void`, so
freeing a message reports its own status. -/
theorem C9_string_free_returns_status :
    chffi_string_free.ret = CType.int32 ∧ chffi_string_free.ret ≠ CType.void := by
  decide

/-- C10: the length parameter of `chffi_pattern_from_ahap_data` (its second
parameter) has type `int32_t`, whose representable values are exactly the
integers from `-2^31` to `2^31 - 1`: negative lengths such as `-1` are
representable, while `2^31` is not. -/
theorem C10_ahap_data_length_int32 :
    chffi_pattern_from_ahap_data.params[1]? = some CType.int32 ∧
    CType.intRange CType.int32 = some (-(2 ^ 31), 2 ^ 31 - 1) ∧
    CType.representable CType.int32 (-1) = true ∧
    CType.representable CType.int32 (-(2 ^ 31)) = true ∧
    CType.representable CType.int32 (2 ^ 31 - 1) = true ∧
    CType.representable CType.int32 (2 ^ 31) = false := by
  decide
